import Mathlib

/-!
Shallow embedding of the task-management backend of `imhotep_tasks`
(`tasks/main/task_managment.py`), together with the parts of the data layer
that the views depend on.  Calendar dates are modelled as `Nat` (a day
number); raw request strings (page numbers, due-date payloads) are modelled
as `List Char`.

Parts of the repository that the views call but whose source is not in the
snapshot (the `Tasks` Django model, `apply_routines`, and
`tasks_managements_utils._parse_date_input`) are modelled from the spec;
each such definition carries a doc comment starting `Modelled from the
spec:`.
-/

namespace Imhotep

/-- Modelled from the spec: the recurrence-rule shape of a Routine is an
external collaborator's concern; the spec gives "weekday set,
interval-from-anchor-date, or explicit date list" as examples, and the
engine treats it purely through `fires_on`. -/
inductive Rule where
  | weekdaySet (days : List Nat)
  | everyN (anchor n : Nat)
  | explicitDates (dates : List Nat)
deriving Repr, DecidableEq

/-- Modelled from the spec: the pure function `fires_on(rule, date) -> bool`. -/
def fires_on : Rule → Nat → Bool
  | .weekdaySet days, d => days.contains (d % 7)
  | .everyN anchor n, d => n != 0 && anchor ≤ d && (d - anchor) % n == 0
  | .explicitDates dates, d => dates.contains d

/-- Modelled from the spec: a Routine record (`id`, `owner`, recurrence rule,
title/details template used to seed materialized tasks). -/
structure Routine where
  id : Nat
  owner : Nat
  rule : Rule
  title : String
  details : Option String
deriving Repr, DecidableEq

/-- Modelled from the spec: the `Tasks` Django model, whose source is not in
the snapshot.  Fields follow the spec data model with the source's column
names: `status` is the completion flag ("completed" in the spec),
`done_date` is "completed_on", and `source_routine` is the optional
(routine id, materialized-for date) back-reference.  Per the spec,
`task_title` and `due_date` are non-optional columns, `task_details` and
`done_date` are nullable. -/
structure Task where
  id : Nat
  created_by : Nat
  task_title : String
  task_details : Option String
  due_date : Nat
  status : Bool
  done_date : Option Nat
  source_routine : Option (Nat × Nat)
deriving Repr, DecidableEq

/-- The persistent state: the task table, the routine table, and the next
fresh primary key for created tasks. -/
structure Store where
  tasks : List Task
  routines : List Routine
  nextId : Nat
deriving Repr, DecidableEq

/-- Parses a decimal numeral, as Python's `int(...)` does on the page query
parameter (digit strings succeed, anything else raises / fails). -/
def parse_nat (s : List Char) : Option Nat :=
  if s ≠ [] ∧ s.all (fun c => c.isDigit) then
    some (s.foldl (fun acc c => acc * 10 + (c.toNat - 48)) 0)
  else none

/-- Modelled from the spec: `tasks_managements_utils._parse_date_input`, a
"date-parsing utility accepting at least ISO-8601 date strings and
returning a calendar date or a parse failure".  With dates as day numbers,
numeric strings parse to the corresponding day and everything else (or an
absent payload) is a parse failure, returned as `none`. -/
def parse_date_input (raw : Option (List Char)) : Option Nat :=
  match raw with
  | none => none
  | some s => parse_nat s

/-! ## Routine materialization engine (spec-modelled) -/

/-- Modelled from the spec: the task record the engine creates for a firing
routine — `due_date = targetDate`, `completed = false`, title/details
copied from the routine template, back-reference recorded. -/
def mk_routine_task (owner date nid : Nat) (r : Routine) : Task :=
  { id := nid, created_by := owner, task_title := r.title,
    task_details := r.details, due_date := date, status := false,
    done_date := none, source_routine := some (r.id, date) }

/-- Modelled from the spec: step 3's existence check — is there already a
Task with `(owner, source_routine = rid, materialized_for = date)`? -/
def has_materialized (owner date rid : Nat) (tasks : List Task) : Bool :=
  tasks.any (fun t => t.created_by == owner && t.source_routine == some (rid, date))

/-- Modelled from the spec: the per-routine check-or-create step of the
engine (steps 2–3 of the algorithm in §4.1). -/
def materializeRoutine (owner date : Nat) (s : Store) (r : Routine) : Store :=
  if r.owner == owner && fires_on r.rule date then
    if has_materialized owner date r.id s.tasks then s
    else { s with tasks := s.tasks ++ [mk_routine_task owner date s.nextId r],
                  nextId := s.nextId + 1 }
  else s

/-- Modelled from the spec: `apply_routines` / `Materialize(owner, targetDate)`
(its source, `tasks/utils/apply_routines.py`, is not in the snapshot):
for each routine owned by `owner` whose rule fires on `date`, create the
missing task, never duplicating an already-materialized one. -/
def apply_routines (owner date : Nat) (s : Store) : Store :=
  s.routines.foldl (materializeRoutine owner date) s

/-! ## Query/aggregation layer (`today_tasks`, `all_tasks`, `next_week_tasks`) -/

/-- The `order_by('status', 'due_date')` sort order: incomplete
(`status = false`, i.e. 0 in the database) strictly before complete, and
within equal completion state, due date ascending. -/
def task_order (a b : Task) : Prop :=
  (a.status = false ∧ b.status = true) ∨ (a.status = b.status ∧ a.due_date ≤ b.due_date)

instance : DecidableRel task_order := fun a b => by
  unfold task_order
  exact inferInstance

instance : IsTotal Task task_order := by
  constructor
  intro a b
  rcases ha : a.status <;> rcases hb : b.status <;>
    simp [task_order, ha, hb, Nat.le_total]

instance : IsTrans Task task_order := by
  constructor
  intro a b c hab hbc
  rcases hab with ⟨ha, hb⟩ | ⟨hab, hd₁⟩ <;> rcases hbc with ⟨hb', hc⟩ | ⟨hbc, hd₂⟩
  · exact Or.inl ⟨ha, hc⟩
  · exact Or.inl ⟨ha, hbc ▸ hb⟩
  · exact Or.inl ⟨hab ▸ hb', hc⟩
  · exact Or.inr ⟨hab.trans hbc, hd₁.trans hd₂⟩

/-- `order_by('status', 'due_date')`. -/
def sortTasks (l : List Task) : List Task :=
  l.insertionSort task_order

/-- The today-view row filter: due today, or overdue and incomplete
(`Q(due_date__date=today) | Q(due_date__date__lt=today, status=False)`). -/
def today_filter (today : Nat) (t : Task) : Bool :=
  t.due_date == today || (t.due_date < today && t.status == false)

/-- The unpaginated, ordered queryset of `today_tasks` (computed after
materialization, over the updated store). -/
def todayQS (s : Store) (user today : Nat) : List Task :=
  sortTasks ((apply_routines user today s).tasks.filter
    (fun t => t.created_by == user && today_filter today t))

/-- The unpaginated, ordered queryset of `all_tasks` (no materialization,
no date filter). -/
def allQS (s : Store) (user : Nat) : List Task :=
  sortTasks (s.tasks.filter (fun t => t.created_by == user))

/-- The unpaginated, ordered queryset of `next_week_tasks`: due within
`[today, today + 7]`, computed after materialization. -/
def weekQS (s : Store) (user today : Nat) : List Task :=
  sortTasks ((apply_routines user today s).tasks.filter
    (fun t => t.created_by == user && today ≤ t.due_date && t.due_date ≤ today + 7))

/-- `Paginator(qs, 20)`. -/
def per_page : Nat := 20

/-- `Paginator.num_pages`: `ceil(count / per_page)`, but at least one page
(Django allows an empty first page). -/
def num_pages (count : Nat) : Nat :=
  max 1 ((count + per_page - 1) / per_page)

/-- `Paginator.validate_number`: non-numeric input is `PageNotAnInteger`,
a number outside `[1, num_pages]` is `EmptyPage`; both are `none` here. -/
def validate_number (count : Nat) (raw : List Char) : Option Nat :=
  match parse_nat raw with
  | none => none
  | some p => if 1 ≤ p ∧ p ≤ num_pages count then some p else none

/-- The views' `try: paginator.page(page_num) except (PageNotAnInteger,
EmptyPage): paginator.page(1)` fallback. -/
def resolve_page (count : Nat) (raw : List Char) : Nat :=
  (validate_number count raw).getD 1

/-- The rows of page `p` (1-based) of the ordered queryset. -/
def page_slice (l : List Task) (p : Nat) : List Task :=
  (l.drop ((p - 1) * per_page)).take per_page

/-- The body a list view returns: the page of tasks, the pagination block,
and the three counts computed from the unpaginated queryset.
`pending_tasks` is Python integer subtraction, hence `Int`. -/
structure ListResponse where
  success : Bool
  user_tasks : List Task
  page : Nat
  num_pages : Nat
  per_page : Nat
  total : Nat
  total_number_tasks : Nat
  completed_tasks_count : Nat
  pending_tasks : Int
deriving Repr, DecidableEq

/-- Builds the shared response shape of the three list views from an
ordered, unpaginated queryset and the raw page parameter. -/
def list_response (qs : List Task) (page_raw : List Char) : ListResponse :=
  let p := resolve_page qs.length page_raw
  { success := true
    user_tasks := page_slice qs p
    page := p
    num_pages := num_pages qs.length
    per_page := per_page
    total := qs.length
    total_number_tasks := qs.length
    completed_tasks_count := (qs.filter (fun t => t.status)).length
    pending_tasks := (qs.length : Int) - ((qs.filter (fun t => t.status)).length : Int) }

/-- `today_tasks`: materializes routines for today, then filters, orders,
paginates and counts.  Returns the updated store and the response. -/
def today_tasks (s : Store) (user today : Nat) (page_raw : List Char) :
    Store × ListResponse :=
  (apply_routines user today s, list_response (todayQS s user today) page_raw)

/-- `all_tasks`: no materialization, every owned task. -/
def all_tasks (s : Store) (user : Nat) (page_raw : List Char) :
    Store × ListResponse :=
  (s, list_response (allQS s user) page_raw)

/-- `next_week_tasks`: materializes routines for today, then the week window. -/
def next_week_tasks (s : Store) (user today : Nat) (page_raw : List Char) :
    Store × ListResponse :=
  (apply_routines user today s, list_response (weekQS s user today) page_raw)

/-! ## Task mutation API -/

/-- A mutation endpoint's visible outcome: the HTTP status code, the
`success` flag, and the task bodies it returns (empty for deletes and for
error responses).  The echoed view counts (`tasks_count`, whose source is
not in the snapshot) are not modelled; no claim refers to them. -/
structure MutResponse where
  code : Nat
  success : Bool
  tasks : List Task
deriving Repr, DecidableEq

/-- The catch-all `except Exception` response: HTTP 500, `success: false`. -/
def resp500 : MutResponse := ⟨500, false, []⟩

/-- A 400 validation error (malformed or empty `task_ids`). -/
def resp400 : MutResponse := ⟨400, false, []⟩

/-- The 404 "No tasks found" response of the bulk date update. -/
def resp404 : MutResponse := ⟨404, false, []⟩

/-- A 200 success carrying the returned task bodies. -/
def resp200 (ts : List Task) : MutResponse := ⟨200, true, ts⟩

/-- `get_object_or_404(Tasks, id=task_id, created_by=request.user)`: the
owner-scoped single-row lookup. -/
def get_object_or_404 (s : Store) (user task_id : Nat) : Option Task :=
  s.tasks.find? (fun t => t.id == task_id && t.created_by == user)

/-- Persisting one modified row (`task.save()`): the row with the task's
primary key is replaced. -/
def save_task (s : Store) (t : Task) : Store :=
  { s with tasks := s.tasks.map (fun x => if x.id == t.id then t else x) }

/-- `Tasks.objects.bulk_update(...)`: each row whose primary key appears in
the updated batch is replaced by its updated version. -/
def bulk_write (tasks updated : List Task) : List Task :=
  tasks.map (fun x =>
    match updated.find? (fun y => y.id == x.id) with
    | some y => y
    | none => x)

/-- A single-task update payload.  `none` means the key is absent from the
request body (the `request.data.get(..., default)` path); an explicit JSON
null is not modelled. -/
structure UpdateReq where
  task_title : Option String
  task_details : Option String
  due_date : Option (List Char)
deriving Repr, DecidableEq

/-- `update_task`: owner-scoped lookup (a miss raises `Http404`, which the
view's own `except Exception` catches, producing the generic 500), partial
update of title/details, and — only when `due_date` is explicitly supplied
— reassignment of the due date to the parse result.  A failed parse makes
`task.save()` persist a null into the non-nullable `due_date` column, which
raises and is caught by the same handler: 500, nothing stored. -/
def update_task (s : Store) (user task_id : Nat) (req : UpdateReq) :
    Store × MutResponse :=
  match get_object_or_404 s user task_id with
  | none => (s, resp500)
  | some task =>
    let task1 := { task with
      task_title := req.task_title.getD task.task_title,
      task_details := match req.task_details with
        | none => task.task_details
        | some d => some d }
    match req.due_date with
    | none => (save_task s task1, resp200 [task1])
    | some raw =>
      match parse_date_input (some raw) with
      | some d =>
        let task2 := { task1 with due_date := d }
        (save_task s task2, resp200 [task2])
      | none => (s, resp500)

/-- `multiple_update_task_dates`: empty `task_ids` is a 400; no owned match
is a 404; with a supplied due date, every selected task is set to the parse
result and persisted with one `bulk_update` (which runs its batch
atomically).  A failed parse would persist nulls into the non-nullable
`due_date` column, so the atomic batch raises and the catch-all returns
500 with no row changed. -/
def multiple_update_task_dates (s : Store) (user : Nat) (task_ids : List Nat)
    (due_date : Option (List Char)) : Store × MutResponse :=
  if task_ids.isEmpty then (s, resp400)
  else
    let tasks_qs := s.tasks.filter
      (fun t => task_ids.contains t.id && t.created_by == user)
    if tasks_qs.isEmpty then (s, resp404)
    else
      match due_date with
      | none => (s, resp200 tasks_qs)
      | some raw =>
        match parse_date_input (some raw) with
        | none => (s, resp500)
        | some d =>
          let updated := tasks_qs.map (fun t => { t with due_date := d })
          ({ s with tasks := bulk_write s.tasks updated }, resp200 updated)

/-- `delete_task`: owner-scoped lookup (`Http404` is swallowed into the
generic 500), then the row is deleted. -/
def delete_task (s : Store) (user task_id : Nat) : Store × MutResponse :=
  match get_object_or_404 s user task_id with
  | none => (s, resp500)
  | some task =>
    ({ s with tasks := s.tasks.filter (fun x => !(x.id == task.id)) },
     resp200 [])

/-- `multiple_delete_task`: empty `task_ids` is a 400; otherwise the
owner-scoped selection is deleted (ids the caller does not own are
silently skipped). -/
def multiple_delete_task (s : Store) (user : Nat) (task_ids : List Nat) :
    Store × MutResponse :=
  if task_ids.isEmpty then (s, resp400)
  else
    let remaining := s.tasks.filter
      (fun t => !(task_ids.contains t.id && t.created_by == user))
    ({ s with tasks := remaining }, resp200 [])

/-- The per-task toggle: `task.status = not task.status; task.done_date =
timezone.now().date() if task.status else None`. -/
def flip_task (today : Nat) (t : Task) : Task :=
  let st := !t.status
  { t with status := st, done_date := if st then some today else none }

/-- `task_complete`: owner-scoped lookup (`Http404` swallowed into the
generic 500), flip, save. -/
def task_complete (s : Store) (user today task_id : Nat) :
    Store × MutResponse :=
  match get_object_or_404 s user task_id with
  | none => (s, resp500)
  | some task =>
    let task1 := flip_task today task
    (save_task s task1, resp200 [task1])

/-- `multiple_task_complete`: no empty-list check (unlike bulk delete and
bulk date update); the owner-scoped selection is flipped per task and
persisted with one `bulk_update`. -/
def multiple_task_complete (s : Store) (user today : Nat) (task_ids : List Nat) :
    Store × MutResponse :=
  let tasks_qs := s.tasks.filter
    (fun t => task_ids.contains t.id && t.created_by == user)
  let updated := tasks_qs.map (flip_task today)
  ({ s with tasks := bulk_write s.tasks updated }, resp200 updated)

/-- `add_task`: the due date falls back to today when absent or unparseable
(`_parse_date_input(due_date_raw) or today`); an absent title makes
`Tasks.objects.create` persist a null into the non-nullable `task_title`
column, which raises and is caught: 500, nothing created (the spec's
"title required"). -/
def add_task (s : Store) (user today : Nat) (task_title : Option String)
    (task_details : Option String) (due_date_raw : Option (List Char)) :
    Store × MutResponse :=
  let due := (parse_date_input due_date_raw).getD today
  match task_title with
  | none => (s, resp500)
  | some tt =>
    let t : Task :=
      { id := s.nextId, created_by := user, task_title := tt,
        task_details := task_details, due_date := due, status := false,
        done_date := none, source_routine := none }
    ({ s with tasks := s.tasks ++ [t], nextId := s.nextId + 1 },
     ⟨201, true, [t]⟩)

/-! ## Helper lemmas and concrete witness data -/

/-- The three counts a list response carries. -/
def counts_of (r : ListResponse) : Nat × Nat × Int :=
  (r.total_number_tasks, r.completed_tasks_count, r.pending_tasks)

/-- A raw page parameter the paginator falls back from: non-numeric
(`PageNotAnInteger`) or outside `[1, num_pages]` (`EmptyPage`). -/
def bad_page (count : Nat) (raw : List Char) : Prop :=
  parse_nat raw = none ∨ ∃ p, parse_nat raw = some p ∧ (p < 1 ∨ num_pages count < p)

theorem resolve_page_of_bad {count : Nat} {raw : List Char}
    (h : bad_page count raw) : resolve_page count raw = 1 := by
  rcases h with h | ⟨p, hp, hout⟩
  · simp [resolve_page, validate_number, h]
  · have : ¬ (1 ≤ p ∧ p ≤ num_pages count) := by omega
    simp [resolve_page, validate_number, hp, this]

theorem resolve_page_one (count : Nat) : resolve_page count (("1").toList) = 1 := by
  have h1 : parse_nat ([Char.ofNat 49]) = some 1 := by decide
  have h2 : 1 ≤ num_pages count := le_max_left _ _
  have hl : ("1").toList = [Char.ofNat 49] := by decide
  simp [resolve_page, validate_number, hl, h1, h2]

theorem bulk_write_nil (l : List Task) : bulk_write l [] = l := by
  simp [bulk_write]

/-- A task owned by user 1, due on day 5, incomplete. -/
def wTaskA : Task := ⟨1, 1, "alpha", none, 5, false, none, none⟩

/-- A task owned by user 1, due on day 4, complete. -/
def wTaskB : Task := ⟨2, 1, "beta", none, 4, true, some 4, none⟩

/-- A task owned by user 2 (used to probe ownership isolation). -/
def wTaskC : Task := ⟨3, 2, "gamma", none, 5, false, none, none⟩

/-- A concrete store used by the closed witness theorems. -/
def wStore : Store :=
  { tasks := [wTaskA, wTaskB, wTaskC],
    routines := [⟨1, 1, Rule.weekdaySet ([0, 1, 2, 3, 4, 5, 6]), "routine", none⟩],
    nextId := 4 }

/-! ## Claim theorems -/

/-- C2: for every list view (today, upcoming week, all) and every page
request, the returned counts satisfy
`pending_tasks = total_number_tasks - completed_tasks_count`, and
`total_number_tasks` and `completed_tasks_count` are computed from the full
unpaginated filtered queryset, independent of the requested page. -/
theorem counts_invariant_c2 (s : Store) (user today : Nat) (p1 p2 : List Char) :
    ((today_tasks s user today p1).2.pending_tasks =
        ((today_tasks s user today p1).2.total_number_tasks : Int) -
          ((today_tasks s user today p1).2.completed_tasks_count : Int) ∧
      (today_tasks s user today p1).2.total_number_tasks = (todayQS s user today).length ∧
      (today_tasks s user today p1).2.completed_tasks_count =
        ((todayQS s user today).filter (fun t => t.status)).length ∧
      counts_of (today_tasks s user today p1).2 = counts_of (today_tasks s user today p2).2) ∧
    ((all_tasks s user p1).2.pending_tasks =
        ((all_tasks s user p1).2.total_number_tasks : Int) -
          ((all_tasks s user p1).2.completed_tasks_count : Int) ∧
      (all_tasks s user p1).2.total_number_tasks = (allQS s user).length ∧
      (all_tasks s user p1).2.completed_tasks_count =
        ((allQS s user).filter (fun t => t.status)).length ∧
      counts_of (all_tasks s user p1).2 = counts_of (all_tasks s user p2).2) ∧
    ((next_week_tasks s user today p1).2.pending_tasks =
        ((next_week_tasks s user today p1).2.total_number_tasks : Int) -
          ((next_week_tasks s user today p1).2.completed_tasks_count : Int) ∧
      (next_week_tasks s user today p1).2.total_number_tasks = (weekQS s user today).length ∧
      (next_week_tasks s user today p1).2.completed_tasks_count =
        ((weekQS s user today).filter (fun t => t.status)).length ∧
      counts_of (next_week_tasks s user today p1).2 = counts_of (next_week_tasks s user today p2).2) :=
  ⟨⟨rfl, rfl, rfl, rfl⟩, ⟨rfl, rfl, rfl, rfl⟩, ⟨rfl, rfl, rfl, rfl⟩⟩

/-- C3: a bulk date update whose explicitly supplied due date is
unparseable changes no stored task and reports failure — the batch is
never applied to a subset.  (The `Tasks` model is not in the snapshot; per
the spec data model `due_date` is a non-nullable column, so persisting the
failed parse raises inside `bulk_update`'s atomic batch and the endpoint's
catch-all answers 500 with nothing written.) -/
theorem bulk_update_unparseable_c3 (s : Store) (user : Nat) (ids : List Nat)
    (raw : List Char) (h : parse_nat raw = none) :
    (multiple_update_task_dates s user ids (some raw)).1 = s ∧
    (multiple_update_task_dates s user ids (some raw)).2.success = false := by
  have hp : parse_date_input (some raw) = none := h
  unfold multiple_update_task_dates
  split
  · exact ⟨rfl, rfl⟩
  · dsimp only
    rw [hp]
    split
    · exact ⟨rfl, rfl⟩
    · exact ⟨rfl, rfl⟩

/-- C3 witness: on the concrete store, a bulk date update of tasks 1 and 2
with the unparseable date "tomorrowish" stores nothing. -/
theorem bulk_update_unparseable_c3_witness :
    (multiple_update_task_dates wStore 1 ([1, 2]) (some (("tomorrowish").toList))).1 = wStore ∧
    (multiple_update_task_dates wStore 1 ([1, 2]) (some (("tomorrowish").toList))).2.success = false :=
  bulk_update_unparseable_c3 wStore 1 ([1, 2]) (("tomorrowish").toList) (by decide)

/-- C8: creating a task requires a title (an absent title stores nothing
and reports failure), and the due date is optional: when it is absent or
unparseable, the created task's due date defaults to today. -/
theorem add_task_defaults_c8 (s : Store) (user today : Nat) (tt : String)
    (details : Option String) (raw : Option (List Char))
    (hraw : parse_date_input raw = none) :
    ((add_task s user today none details raw).1 = s ∧
      (add_task s user today none details raw).2.code = 500 ∧
      (add_task s user today none details raw).2.success = false) ∧
    (∃ t : Task,
      (add_task s user today (some tt) details raw).1.tasks = s.tasks ++ [t] ∧
      (add_task s user today (some tt) details raw).2 = ⟨201, true, [t]⟩ ∧
      t.task_title = tt ∧ t.due_date = today) := by
  constructor
  · exact ⟨rfl, rfl, rfl⟩
  · refine ⟨_, rfl, rfl, rfl, ?_⟩
    show (parse_date_input raw).getD today = today
    rw [hraw]
    rfl

/-- C8 witness: with an absent due date and with the unparseable payload
"soon", the created task is due today (day 5); an absent title creates
nothing. -/
theorem add_task_defaults_c8_witness :
    (∃ t : Task,
      (add_task wStore 1 5 (some ("hello")) none none).1.tasks = wStore.tasks ++ [t] ∧
      (add_task wStore 1 5 (some ("hello")) none none).2 = ⟨201, true, [t]⟩ ∧
      t.task_title = ("hello") ∧ t.due_date = 5) ∧
    ((add_task wStore 1 5 none none (some (("soon").toList))).1 = wStore ∧
      (add_task wStore 1 5 none none (some (("soon").toList))).2.code = 500 ∧
      (add_task wStore 1 5 none none (some (("soon").toList))).2.success = false) :=
  ⟨(add_task_defaults_c8 wStore 1 5 ("hello") none none (by decide)).2,
   (add_task_defaults_c8 wStore 1 5 ("hello") none (some (("soon").toList)) (by decide)).1⟩

/-- C10: bulk toggle-complete with an empty `task_ids` list answers 200
with `success: true` and an empty task list and changes nothing, whereas
bulk delete and bulk date update reject an empty list with a 400 client
error (and also change nothing). -/
theorem empty_bulk_c10 (s : Store) (user today : Nat) (raw : Option (List Char)) :
    ((multiple_task_complete s user today ([])).2 = resp200 ([]) ∧
      (multiple_task_complete s user today ([])).1 = s) ∧
    ((multiple_delete_task s user ([])).2 = resp400 ∧
      (multiple_delete_task s user ([])).1 = s) ∧
    ((multiple_update_task_dates s user ([]) raw).2 = resp400 ∧
      (multiple_update_task_dates s user ([]) raw).1 = s) := by
  have hqs : s.tasks.filter
      (fun t => (([] : List Nat)).contains t.id && t.created_by == user) = [] := by
    simp
  refine ⟨⟨?_, ?_⟩, ⟨rfl, rfl⟩, ⟨rfl, rfl⟩⟩
  · simp [multiple_task_complete, hqs]
  · simp [multiple_task_complete, hqs, bulk_write_nil]

/-- A bad page parameter makes every list view answer exactly page 1. -/
theorem list_response_of_bad (qs : List Task) (raw : List Char)
    (h : bad_page qs.length raw) :
    list_response qs raw = list_response qs (("1").toList) := by
  unfold list_response
  rw [resolve_page_of_bad h, resolve_page_one]

/-- C9: for every list view, a non-numeric page parameter (such as "abc")
or a page beyond the last one yields page 1's response with `success:
true`, never an error, and the page size is the fixed 20. -/
theorem pagination_fallback_c9 (s : Store) (user today : Nat) (raw : List Char) :
    ((today_tasks s user today raw).2.per_page = 20 ∧
      (all_tasks s user raw).2.per_page = 20 ∧
      (next_week_tasks s user today raw).2.per_page = 20 ∧
      (today_tasks s user today raw).2.success = true ∧
      (all_tasks s user raw).2.success = true ∧
      (next_week_tasks s user today raw).2.success = true) ∧
    (bad_page (todayQS s user today).length raw →
      (today_tasks s user today raw).2 = (today_tasks s user today (("1").toList)).2) ∧
    (bad_page (allQS s user).length raw →
      (all_tasks s user raw).2 = (all_tasks s user (("1").toList)).2) ∧
    (bad_page (weekQS s user today).length raw →
      (next_week_tasks s user today raw).2 = (next_week_tasks s user today (("1").toList)).2) := by
  refine ⟨⟨rfl, rfl, rfl, rfl, rfl, rfl⟩, ?_, ?_, ?_⟩ <;>
    intro h <;> exact list_response_of_bad _ _ h

/-- C9 witness: on the concrete store, page "abc" and page "9999" both
return page 1's response. -/
theorem pagination_fallback_c9_witness :
    (today_tasks wStore 1 5 (("abc").toList)).2 = (today_tasks wStore 1 5 (("1").toList)).2 ∧
    (all_tasks wStore 1 (("9999").toList)).2 = (all_tasks wStore 1 (("1").toList)).2 :=
  ⟨(pagination_fallback_c9 wStore 1 5 (("abc").toList)).2.1 (Or.inl (by decide)),
   (pagination_fallback_c9 wStore 1 5 (("9999").toList)).2.2.1
     (Or.inr ⟨9999, by decide, Or.inr (by decide)⟩)⟩

/-- C5: the today view's queryset consists of exactly the owner's tasks
(in the store as materialized for today) that are due today or are overdue
and incomplete; it is ordered with incomplete strictly before complete and,
within equal completion state, by due date ascending; and every page the
view returns is a slice of that ordered queryset. -/
theorem today_view_c5 (s : Store) (user today : Nat) :
    (∀ t : Task, t ∈ todayQS s user today ↔
      (t ∈ (apply_routines user today s).tasks ∧ t.created_by = user ∧
        (t.due_date = today ∨ (t.due_date < today ∧ t.status = false)))) ∧
    (todayQS s user today).Perm
      ((apply_routines user today s).tasks.filter
        (fun t => t.created_by == user && today_filter today t)) ∧
    List.Pairwise task_order (todayQS s user today) ∧
    (∀ p, (today_tasks s user today p).2.user_tasks =
      page_slice (todayQS s user today)
        (resolve_page (todayQS s user today).length p)) := by
  refine ⟨?_, ?_, ?_, fun p => rfl⟩
  · intro t
    simp [todayQS, sortTasks, List.mem_insertionSort, List.mem_filter,
      today_filter, and_assoc]
  · exact List.perm_insertionSort task_order _
  · exact List.sorted_insertionSort task_order _

/-- A materialization step never touches the routine table. -/
theorem materializeRoutine_routines (o d : Nat) (s : Store) (r : Routine) :
    (materializeRoutine o d s r).routines = s.routines := by
  unfold materializeRoutine
  split
  · split <;> rfl
  · rfl

/-- A materialization step only appends to the task table. -/
theorem materializeRoutine_tasks_extend (o d : Nat) (s : Store) (r : Routine) :
    ∃ l, (materializeRoutine o d s r).tasks = s.tasks ++ l := by
  unfold materializeRoutine
  split
  · split
    · exact ⟨[], (List.append_nil _).symm⟩
    · exact ⟨[mk_routine_task o d s.nextId r], rfl⟩
  · exact ⟨[], (List.append_nil _).symm⟩

/-- The existence check is monotone under appending tasks. -/
theorem has_materialized_append {o d rid : Nat} {ts l : List Task}
    (h : has_materialized o d rid ts = true) :
    has_materialized o d rid (ts ++ l) = true := by
  unfold has_materialized at h ⊢
  rw [List.any_append, h, Bool.true_or]

/-- After its own step, a firing routine owned by `o` has a materialized
task. -/
theorem materializeRoutine_establishes (o d : Nat) (s : Store) (r : Routine)
    (hc : (r.owner == o && fires_on r.rule d) = true) :
    has_materialized o d r.id (materializeRoutine o d s r).tasks = true := by
  unfold materializeRoutine
  rw [hc, if_pos rfl]
  split
  · assumption
  · simp [has_materialized, List.any_append, mk_routine_task]

theorem foldl_mat_routines (o d : Nat) (rs : List Routine) (s : Store) :
    (rs.foldl (materializeRoutine o d) s).routines = s.routines := by
  induction rs generalizing s with
  | nil => rfl
  | cons r rs ih => rw [List.foldl_cons, ih, materializeRoutine_routines]

theorem foldl_mat_tasks_extend (o d : Nat) (rs : List Routine) (s : Store) :
    ∃ l, (rs.foldl (materializeRoutine o d) s).tasks = s.tasks ++ l := by
  induction rs generalizing s with
  | nil => exact ⟨[], (List.append_nil _).symm⟩
  | cons r rs ih =>
    obtain ⟨l1, h1⟩ := materializeRoutine_tasks_extend o d s r
    obtain ⟨l2, h2⟩ := ih (materializeRoutine o d s r)
    exact ⟨l1 ++ l2, by rw [List.foldl_cons, h2, h1, List.append_assoc]⟩

/-- After a full pass, every firing routine owned by `o` that the pass
visited has a materialized task. -/
theorem foldl_mat_establishes (o d : Nat) (rs : List Routine) (s : Store) :
    ∀ r ∈ rs, (r.owner == o && fires_on r.rule d) = true →
      has_materialized o d r.id ((rs.foldl (materializeRoutine o d) s).tasks) = true := by
  induction rs generalizing s with
  | nil => intro r hr; cases hr
  | cons a rs ih =>
    intro r hr hc
    rw [List.foldl_cons]
    rcases List.mem_cons.mp hr with rfl | hr'
    · obtain ⟨l, hl⟩ := foldl_mat_tasks_extend o d rs (materializeRoutine o d s r)
      rw [hl]
      exact has_materialized_append (materializeRoutine_establishes o d s r hc)
    · exact ih _ r hr' hc

/-- A pass over routines that already all have their materialized task is
a no-op. -/
theorem foldl_mat_noop (o d : Nat) (rs : List Routine) (s : Store)
    (h : ∀ r ∈ rs, (r.owner == o && fires_on r.rule d) = true →
      has_materialized o d r.id s.tasks = true) :
    rs.foldl (materializeRoutine o d) s = s := by
  induction rs with
  | nil => rfl
  | cons a rs ih =>
    have hstep : materializeRoutine o d s a = s := by
      unfold materializeRoutine
      split
      · rename_i hc
        rw [h a (List.mem_cons_self a rs) hc, if_pos rfl]
      · rfl
    rw [List.foldl_cons, hstep]
    exact ih (fun r hr hc => h r (List.mem_cons_of_mem _ hr) hc)

/-- One call of the engine materializes everything, so a second call for
the same (owner, date) changes nothing. -/
theorem apply_routines_idem (o d : Nat) (s : Store) :
    apply_routines o d (apply_routines o d s) = apply_routines o d s := by
  unfold apply_routines
  rw [foldl_mat_routines]
  exact foldl_mat_noop o d s.routines _
    (fun r hr hc => foldl_mat_establishes o d s.routines s r hr hc)

theorem apply_routines_iter_fix (o d : Nat) (s : Store) (m : Nat) :
    (fun st => apply_routines o d st)^[m] (apply_routines o d s) =
      apply_routines o d s := by
  induction m generalizing s with
  | zero => rfl
  | succ m ih =>
    rw [Function.iterate_succ_apply]
    show (fun st => apply_routines o d st)^[m]
      (apply_routines o d (apply_routines o d s)) = _
    rw [apply_routines_idem]
    exact ih s

/-- C1: for every owner and date, calling the materialization engine N
times (N ≥ 1) for the same (owner, date) leaves exactly the state one call
leaves — no repeated call creates an additional task for an already
materialized (routine, date) pair. -/
theorem apply_routines_idempotent_c1 (owner date : Nat) (s : Store) (n : Nat)
    (h : 1 ≤ n) :
    (fun st => apply_routines owner date st)^[n] s = apply_routines owner date s := by
  obtain ⟨m, rfl⟩ : ∃ m, n = m + 1 := ⟨n - 1, by omega⟩
  rw [Function.iterate_succ_apply]
  exact apply_routines_iter_fix owner date s m

/-- C1 witness: on the concrete store, three calls for (owner 1, day 5)
equal one call. -/
theorem apply_routines_idempotent_c1_witness :
    1 ≤ 3 ∧
      (fun st => apply_routines 1 5 st)^[3] wStore = apply_routines 1 5 wStore :=
  ⟨by decide, apply_routines_idempotent_c1 1 5 wStore 3 (by decide)⟩

/-- Saving a modified row whose field `f` is unchanged does not change the
projection of the task table along `f`, provided primary keys are unique. -/
theorem map_field_save {β : Type} (s : Store) (t t' : Task) (f : Task → β)
    (hids : (s.tasks.map Task.id).Nodup) (hmem : t ∈ s.tasks)
    (hid : t'.id = t.id) (hf : f t' = f t) :
    (save_task s t').tasks.map f = s.tasks.map f := by
  show (s.tasks.map (fun x => if x.id == t'.id then t' else x)).map f = _
  rw [List.map_map]
  apply List.map_congr_left
  intro x hx
  by_cases hxid : x.id = t'.id
  · have hxt : x = t :=
      List.inj_on_of_nodup_map hids hx hmem (by rw [hxid, hid])
    subst hxt
    simp [Function.comp, hid, hf]
  · simp [Function.comp, hxid]

/-- C4: a single-task update retains the previous value of every omitted
field (across the whole task table), and an explicitly supplied but
unparseable due date is rejected: the endpoint answers the generic failure
and no task is stored with an invalid date.  (The `Tasks` model is not in
the snapshot; per the spec data model `due_date` is a non-nullable column,
so saving the failed parse raises and the catch-all answers 500 with
nothing written.) -/
theorem update_task_partial_c4 (s : Store) (user task_id : Nat) (req : UpdateReq)
    (t : Task) (hids : (s.tasks.map Task.id).Nodup)
    (hfind : get_object_or_404 s user task_id = some t) :
    (∀ raw, req.due_date = some raw → parse_nat raw = none →
      (update_task s user task_id req).1 = s ∧
      (update_task s user task_id req).2 = resp500) ∧
    (req.due_date = none →
      (update_task s user task_id req).1.tasks.map Task.due_date =
        s.tasks.map Task.due_date) ∧
    (req.task_title = none →
      (update_task s user task_id req).1.tasks.map Task.task_title =
        s.tasks.map Task.task_title) ∧
    (req.task_details = none →
      (update_task s user task_id req).1.tasks.map Task.task_details =
        s.tasks.map Task.task_details) := by
  have hmem : t ∈ s.tasks := List.mem_of_find?_eq_some hfind
  refine ⟨?_, ?_, ?_, ?_⟩
  · intro raw hraw hparse
    unfold update_task
    rw [hfind]
    dsimp only
    rw [hraw]
    dsimp only
    rw [show parse_date_input (some raw) = none from hparse]
    exact ⟨rfl, rfl⟩
  · intro hdue
    unfold update_task
    rw [hfind]
    dsimp only
    rw [hdue]
    exact map_field_save s t _ Task.due_date hids hmem rfl rfl
  · intro htitle
    unfold update_task
    rw [hfind]
    dsimp only
    rcases hdue : req.due_date with _ | raw
    · exact map_field_save s t _ Task.task_title hids hmem rfl
        (by simp [htitle])
    · dsimp only
      rcases hparse : parse_date_input (some raw) with _ | d
      · rfl
      · exact map_field_save s t _ Task.task_title hids hmem rfl
          (by simp [htitle])
  · intro hdetails
    unfold update_task
    rw [hfind]
    dsimp only
    rcases hdue : req.due_date with _ | raw
    · exact map_field_save s t _ Task.task_details hids hmem rfl
        (by simp [hdetails])
    · dsimp only
      rcases hparse : parse_date_input (some raw) with _ | d
      · rfl
      · exact map_field_save s t _ Task.task_details hids hmem rfl
          (by simp [hdetails])

/-- C4 witness: on the concrete store, updating task 1 with the
unparseable date "someday" stores nothing, and a title-only update leaves
every stored due date as it was. -/
theorem update_task_partial_c4_witness :
    ((update_task wStore 1 1 ⟨none, none, some (("someday").toList)⟩).1 = wStore ∧
      (update_task wStore 1 1 ⟨none, none, some (("someday").toList)⟩).2 = resp500) ∧
    (update_task wStore 1 1 ⟨some ("renamed"), none, none⟩).1.tasks.map Task.due_date =
      wStore.tasks.map Task.due_date :=
  ⟨(update_task_partial_c4 wStore 1 1 ⟨none, none, some (("someday").toList)⟩ wTaskA
      (by decide) (by decide)).1 (("someday").toList) rfl (by decide),
   (update_task_partial_c4 wStore 1 1 ⟨some ("renamed"), none, none⟩ wTaskA
      (by decide) (by decide)).2.1 rfl⟩

/-- A batch whose head's primary key appears nowhere in `l` writes the
same rows as the batch without it. -/
theorem bulk_write_cons_notmem (l : List Task) (u : Task) (U : List Task)
    (h : ∀ x ∈ l, x.id ≠ u.id) : bulk_write l (u :: U) = bulk_write l U := by
  unfold bulk_write
  apply List.map_congr_left
  intro x hx
  have hne : ¬((fun y => y.id == x.id) u = true) := by
    simp only [beq_iff_eq]
    exact fun he => h x hx he.symm
  rw [@List.find?_cons_of_neg _ (fun y => y.id == x.id) u U hne]

/-- With unique primary keys, selecting rows, transforming each with an
id-preserving `g`, and writing the batch back is the same as transforming
each selected row in place. -/
theorem bulk_write_filter_map (sel : Task → Bool) (g : Task → Task)
    (hg : ∀ x, (g x).id = x.id) :
    ∀ l : List Task, (l.map Task.id).Nodup →
      bulk_write l ((l.filter sel).map g) =
        l.map (fun x => if sel x then g x else x) := by
  intro l
  induction l with
  | nil => intro _; rfl
  | cons a l ih =>
    intro hnd
    have ha : ∀ x ∈ l, x.id ≠ a.id := by
      intro x hx hxa
      have : a.id ∈ l.map Task.id := hxa ▸ List.mem_map_of_mem Task.id hx
      exact (List.nodup_cons.mp (by simpa using hnd)).1 this
    have hnd' : (l.map Task.id).Nodup :=
      (List.nodup_cons.mp (by simpa using hnd)).2
    by_cases hsa : sel a = true
    · rw [List.filter_cons_of_pos hsa, List.map_cons]
      have hhead : List.find? (fun y => y.id == a.id)
          (g a :: (l.filter sel).map g) = some (g a) :=
        List.find?_cons_of_pos _ (by simp [hg])
      have hstep : bulk_write (a :: l) (g a :: (l.filter sel).map g) =
          (match List.find? (fun y => y.id == a.id) (g a :: (l.filter sel).map g) with
            | some y => y
            | none => a) :: bulk_write l (g a :: (l.filter sel).map g) := rfl
      rw [hstep, hhead,
        bulk_write_cons_notmem l (g a) _ (fun x hx => by rw [hg]; exact ha x hx),
        ih hnd', List.map_cons, if_pos hsa]
    · rw [List.filter_cons_of_neg hsa]
      have hhead : List.find? (fun y => y.id == a.id) ((l.filter sel).map g) = none := by
        rw [List.find?_eq_none]
        intro y hy
        obtain ⟨w, hw, rfl⟩ := List.mem_map.mp hy
        have hwl : w ∈ l := List.mem_of_mem_filter hw
        simp [hg, ha w hwl]
      have hstep : bulk_write (a :: l) ((l.filter sel).map g) =
          (match List.find? (fun y => y.id == a.id) ((l.filter sel).map g) with
            | some y => y
            | none => a) :: bulk_write l ((l.filter sel).map g) := rfl
      rw [hstep, hhead, ih hnd', List.map_cons, if_neg hsa]

/-- C6: toggle-complete flips the `status` flag; on the transition to
complete `done_date` is set to today, on the transition to incomplete it
is cleared; the stored row is replaced by exactly that flip; and the bulk
variant applies the same flip independently to each selected task, each
task's own prior state determining its new state. -/
theorem toggle_complete_c6 (s : Store) (user today : Nat)
    (hids : (s.tasks.map Task.id).Nodup) :
    (∀ task_id t, get_object_or_404 s user task_id = some t →
      (task_complete s user today task_id).2 = resp200 ([flip_task today t]) ∧
      (flip_task today t).status = !t.status ∧
      (t.status = true → (flip_task today t).status = false ∧
        (flip_task today t).done_date = none) ∧
      (t.status = false → (flip_task today t).status = true ∧
        (flip_task today t).done_date = some today) ∧
      (task_complete s user today task_id).1.tasks =
        s.tasks.map (fun x => if x.id = t.id then flip_task today x else x)) ∧
    (∀ task_ids : List Nat,
      (multiple_task_complete s user today task_ids).1.tasks =
        s.tasks.map (fun x =>
          if task_ids.contains x.id && x.created_by == user
          then flip_task today x else x)) := by
  constructor
  · intro task_id t hfind
    have hmem : t ∈ s.tasks := List.mem_of_find?_eq_some hfind
    refine ⟨?_, rfl, ?_, ?_, ?_⟩
    · unfold task_complete
      rw [hfind]
    · intro h; simp [flip_task, h]
    · intro h; simp [flip_task, h]
    · unfold task_complete
      rw [hfind]
      show (save_task s (flip_task today t)).tasks = _
      unfold save_task
      dsimp only
      apply List.map_congr_left
      intro x hx
      by_cases hxid : x.id = t.id
      · have hxt : x = t := List.inj_on_of_nodup_map hids hx hmem hxid
        subst hxt
        simp [flip_task]
      · have : (x.id == (flip_task today t).id) = false := by
          simp [flip_task, hxid]
        simp [this, hxid]
  · intro task_ids
    unfold multiple_task_complete
    exact bulk_write_filter_map _ (flip_task today) (fun x => rfl) s.tasks hids

/-- C6 witness: on the concrete store, toggling complete task 2 makes it
incomplete with `done_date` cleared, and toggling incomplete task 1 makes
it complete with `done_date = today`; an in-place bulk toggle of both
flips each according to its own prior state. -/
theorem toggle_complete_c6_witness :
    ((flip_task 9 wTaskB).status = false ∧ (flip_task 9 wTaskB).done_date = none) ∧
    ((flip_task 9 wTaskA).status = true ∧ (flip_task 9 wTaskA).done_date = some 9) ∧
    (multiple_task_complete wStore 1 9 ([1, 2])).1.tasks =
      wStore.tasks.map (fun x =>
        if ([1, 2] : List Nat).contains x.id && x.created_by == 1
        then flip_task 9 x else x) :=
  ⟨((toggle_complete_c6 wStore 1 9 (by decide)).1 2 wTaskB (by decide)).2.2.1 rfl,
   ((toggle_complete_c6 wStore 1 9 (by decide)).1 1 wTaskA (by decide)).2.2.2.1 rfl,
   (toggle_complete_c6 wStore 1 9 (by decide)).2 ([1, 2])⟩

/-- A row that the owner-scoped selection does not pick is untouched by a
select-then-bulk-write round trip. -/
theorem mem_bulk_write_of_unselected (sel : Task → Bool) (g : Task → Task)
    (hg : ∀ x, (g x).id = x.id) (l : List Task) (hids : (l.map Task.id).Nodup)
    (x : Task) (hx : x ∈ l) (hsel : sel x = false) :
    x ∈ bulk_write l ((l.filter sel).map g) := by
  rw [bulk_write_filter_map sel g hg l hids]
  have hx' := List.mem_map_of_mem (fun y => if sel y then g y else y) hx
  simpa [hsel] using hx'

/-- C7 counterexample: the claim says an ownership violation is surfaced
as "not found", but on the concrete store user 1 updating user 2's task 3
gets the generic 500 (the `Http404` raised by `get_object_or_404` is an
`Exception`, so the endpoint's own `except Exception` swallows it), not a
404. -/
theorem ownership_not_found_c7_counterexample :
    (update_task wStore 1 3 ⟨none, none, none⟩).2.code = 500 ∧
    ¬((update_task wStore 1 3 ⟨none, none, none⟩).2.code = 404) := by
  decide

/-- C7 amended: acting on a task id owned by a different user never
modifies that task — single-task update/delete/toggle leave the store
unchanged, and bulk operations leave every task of another owner in place —
but the violation is surfaced as the generic 500 internal error for
single-task mutations (the not-found signal is swallowed by the broad
exception handler), and bulk mutations silently skip unowned ids rather
than reporting them. -/
theorem ownership_isolation_c7_amended (s : Store) (userA today task_id : Nat)
    (req : UpdateReq) (hids : (s.tasks.map Task.id).Nodup)
    (h : ∀ x ∈ s.tasks, x.id = task_id → x.created_by ≠ userA) :
    ((update_task s userA task_id req).1 = s ∧
      (update_task s userA task_id req).2 = resp500) ∧
    ((delete_task s userA task_id).1 = s ∧
      (delete_task s userA task_id).2 = resp500) ∧
    ((task_complete s userA today task_id).1 = s ∧
      (task_complete s userA today task_id).2 = resp500) ∧
    (∀ ids : List Nat, ∀ x ∈ s.tasks, x.created_by ≠ userA →
      x ∈ (multiple_delete_task s userA ids).1.tasks ∧
      x ∈ (multiple_task_complete s userA today ids).1.tasks ∧
      ∀ raw, x ∈ (multiple_update_task_dates s userA ids raw).1.tasks) := by
  have hnone : get_object_or_404 s userA task_id = none := by
    rw [get_object_or_404, List.find?_eq_none]
    intro x hx
    simp only [Bool.and_eq_true, beq_iff_eq, not_and]
    exact fun hid => h x hx hid
  refine ⟨?_, ?_, ?_, ?_⟩
  · unfold update_task
    rw [hnone]
    exact ⟨rfl, rfl⟩
  · unfold delete_task
    rw [hnone]
    exact ⟨rfl, rfl⟩
  · unfold task_complete
    rw [hnone]
    exact ⟨rfl, rfl⟩
  · intro ids x hx hxo
    have hsel : (ids.contains x.id && x.created_by == userA) = false := by
      simp [hxo]
    refine ⟨?_, ?_, ?_⟩
    · unfold multiple_delete_task
      split
      · exact hx
      · dsimp only
        exact List.mem_filter.mpr ⟨hx, by rw [Bool.not_eq_true']; exact hsel⟩
    · unfold multiple_task_complete
      exact mem_bulk_write_of_unselected _ (flip_task today) (fun y => rfl)
        s.tasks hids x hx hsel
    · intro raw
      unfold multiple_update_task_dates
      split
      · exact hx
      · dsimp only
        split
        · exact hx
        · rcases raw with _ | rawv
          · exact hx
          · dsimp only
            rcases hp : parse_date_input (some rawv) with _ | d
            · exact hx
            · exact mem_bulk_write_of_unselected
                (fun t => ids.contains t.id && t.created_by == userA)
                (fun t => { t with due_date := d }) (fun y => rfl)
                s.tasks hids x hx hsel

/-- C7 witness (for the amended claim): on the concrete store, user 1
acting on user 2's task 3 gets a 500 with nothing changed, and user 2's
task survives user 1's bulk delete and bulk toggle untouched. -/
theorem ownership_isolation_c7_witness :
    ((update_task wStore 1 3 ⟨none, none, none⟩).1 = wStore ∧
      (update_task wStore 1 3 ⟨none, none, none⟩).2 = resp500) ∧
    wTaskC ∈ (multiple_delete_task wStore 1 ([3])).1.tasks ∧
    wTaskC ∈ (multiple_task_complete wStore 1 9 ([3])).1.tasks :=
  ⟨(ownership_isolation_c7_amended wStore 1 9 3 ⟨none, none, none⟩
      (by decide) (by decide)).1,
   ((ownership_isolation_c7_amended wStore 1 9 3 ⟨none, none, none⟩
      (by decide) (by decide)).2.2.2 ([3]) wTaskC (by decide) (by decide)).1,
   ((ownership_isolation_c7_amended wStore 1 9 3 ⟨none, none, none⟩
      (by decide) (by decide)).2.2.2 ([3]) wTaskC (by decide) (by decide)).2.1⟩

end Imhotep
